import Mathlib

/-!
# The `on3demand` SGX frequency governor

A shallow embedding of `drivers/gpu/pvr/omap4/sgxfreq_on3demand.c`.

* The governor singleton `odd` becomes an explicit value of `on3demand_data`
  that every entry point receives and returns.
* The calls a handler makes into the frequency backend and the workqueue
  (`sgxfreq_set_freq_request`, `schedule_delayed_work`,
  `cancel_delayed_work_sync`) are returned, in program order, as a list of
  `Action`s.
* The values the backend getters return during one handler invocation are
  collected in a `Backend` record.
* `unsigned int` fields are natural numbers; arithmetic that can wrap is
  written with an explicit `% 2 ^ 32` (or `% 2 ^ BITS_PER_LONG` for
  `unsigned long`).
* Runs are sequences of `Event`s. `handle_all` applies the entry points to the
  governor data alone; `run` also keeps the number of pending re-evaluations
  of the delayed work and lets the timer fire only while one is pending.
-/

namespace On3demand

/-! ## Machine integers and target constants -/

/-- Number of values of a C `unsigned int` (32 bits on every Linux target). -/
def UINT_MOD : Nat := 2 ^ 32

/-- Constants of the build target that `sgxfreq_on3demand.c` uses but does not
define: the timer frequency `HZ` and the width of `unsigned long`. -/
structure Target where
  HZ : Nat
  BITS_PER_LONG : Nat
  deriving DecidableEq, Repr

/-- Number of values of a C `unsigned long` on the target. -/
def ULONG_MOD (t : Target) : Nat := 2 ^ t.BITS_PER_LONG

/-- Conversion of an `int` to `unsigned int` (the usual arithmetic conversion
applied to `load` when it is compared with an `unsigned int` threshold). -/
def to_uint (x : Int) : Nat := (x % (UINT_MOD : Int)).toNat

/-- Conversion of an `int` to `unsigned long` (applied to `load` when it is
multiplied with the `unsigned long` current frequency). -/
def to_ulong (t : Target) (x : Int) : Nat := (x % (ULONG_MOD t : Int)).toNat

/-! ## Data model -/

/-- The fields of `struct on3demand_data` that carry governor state. -/
structure on3demand_data where
  up_threshold : Nat
  down_threshold : Nat
  history_size : Nat
  low_load_cnt : Nat
  poll_interval : Nat
  frame_done_deadline : Nat
  polling_enabled : Bool
  deriving DecidableEq, Repr

/-- What the backend getters return while one governor entry point runs:
`sgxfreq_get_load()` (a C `int`), `sgxfreq_get_delta_active()`,
`sgxfreq_get_freq()`, `sgxfreq_get_freq_min()`, `sgxfreq_get_freq_max()`. -/
structure Backend where
  load : Int
  delta_active : Nat
  freq : Nat
  freq_min : Nat
  freq_max : Nat
  deriving DecidableEq, Repr

/-- The externally visible calls a governor entry point makes. -/
inductive Action where
  | set_freq_request (freq : Nat)
  | schedule_delayed_work (delay : Nat)
  | cancel_delayed_work_sync
  deriving DecidableEq, Repr

/-- Error codes returned by the sysfs store functions. -/
inductive Errno where
  | EINVAL
  deriving DecidableEq, Repr

def ON3DEMAND_DEFAULT_UP_THRESHOLD : Nat := 95
def ON3DEMAND_DEFAULT_DOWN_THRESHOLD : Nat := 75
def ON3DEMAND_DEFAULT_HISTORY_SIZE_THRESHOLD : Nat := 10
def ON3DEMAND_DEFAULT_POLL_INTERVAL : Nat := 75
def ON3DEMAND_DEFAULT_FRAME_DONE_DEADLINE_MS : Nat := 16

/-! ## sysfs interface

Each store function receives the outcome of `sscanf(buf, "%u", &v)`:
`some v` when it returned 1 and stored `v`, `none` otherwise. -/

def store_down_threshold (scan : Option Nat) (count : Nat) (odd : on3demand_data) :
    on3demand_data × Except Errno Nat :=
  match scan with
  | none => (odd, .error .EINVAL)
  | some v =>
    let thres := if v > 100 then 100 else v
    ({ odd with down_threshold := thres, low_load_cnt := 0 }, .ok count)

def store_up_threshold (scan : Option Nat) (count : Nat) (odd : on3demand_data) :
    on3demand_data × Except Errno Nat :=
  match scan with
  | none => (odd, .error .EINVAL)
  | some v =>
    let thres := if v > 100 then 100 else v
    ({ odd with up_threshold := thres, low_load_cnt := 0 }, .ok count)

def store_history_size (scan : Option Nat) (count : Nat) (odd : on3demand_data) :
    on3demand_data × Except Errno Nat :=
  match scan with
  | none => (odd, .error .EINVAL)
  | some v =>
    let size := if v < 1 then 1 else v
    ({ odd with history_size := size, low_load_cnt := 0 }, .ok count)

def store_poll_interval (scan : Option Nat) (count : Nat) (odd : on3demand_data) :
    on3demand_data × Except Errno Nat :=
  match scan with
  | none => (odd, .error .EINVAL)
  | some v =>
    let interval := if v < 1 then 1 else v
    ({ odd with poll_interval := interval, low_load_cnt := 0 }, .ok count)

def store_frame_done_deadline (scan : Option Nat) (count : Nat) (odd : on3demand_data) :
    on3demand_data × Except Errno Nat :=
  match scan with
  | none => (odd, .error .EINVAL)
  | some v =>
    let deadline := if v < 1 then 1 else v
    ({ odd with frame_done_deadline := deadline, low_load_cnt := 0 }, .ok count)

/-- The five attributes of `on3demand_attributes[]`. -/
inductive Attr where
  | down_threshold
  | up_threshold
  | history_size
  | poll_interval
  | frame_done_deadline
  deriving DecidableEq, Repr

/-- A write to one attribute of the `on3demand` group: sysfs dispatches to the
store function registered for it by `DEVICE_ATTR`. -/
def store (a : Attr) (scan : Option Nat) (count : Nat) (odd : on3demand_data) :
    on3demand_data × Except Errno Nat :=
  match a with
  | .down_threshold => store_down_threshold scan count odd
  | .up_threshold => store_up_threshold scan count odd
  | .history_size => store_history_size scan count odd
  | .poll_interval => store_poll_interval scan count odd
  | .frame_done_deadline => store_frame_done_deadline scan count odd

/-! ## Governor entry points -/

/-- The function `on3demand_start` (source lines 248-267): the field
assignments, the calls it makes into the backend and the workqueue (none:
`INIT_DELAYED_WORK` only initialises the work item), and the return value;
`sysfs_ret` is what `sysfs_create_group` returned. -/
def on3demand_start (sysfs_ret : Int) (odd : on3demand_data) :
    (on3demand_data × List Action) × Int :=
  let odd := { odd with up_threshold := ON3DEMAND_DEFAULT_UP_THRESHOLD }
  let odd := { odd with down_threshold := ON3DEMAND_DEFAULT_DOWN_THRESHOLD }
  let odd := { odd with history_size := ON3DEMAND_DEFAULT_HISTORY_SIZE_THRESHOLD }
  let odd := { odd with low_load_cnt := 0 }
  let odd := { odd with poll_interval := ON3DEMAND_DEFAULT_POLL_INTERVAL }
  let odd := { odd with polling_enabled := false }
  let odd := { odd with frame_done_deadline := ON3DEMAND_DEFAULT_FRAME_DONE_DEADLINE_MS }
  if sysfs_ret ≠ 0 then ((odd, []), sysfs_ret) else ((odd, []), 0)

/-- The delay argument `odd.poll_interval * HZ/1000`, computed in
`unsigned int`. -/
def poll_delay (t : Target) (odd : on3demand_data) : Nat :=
  (odd.poll_interval * t.HZ) % UINT_MOD / 1000

/-- The function `on3demand_predict` (source lines 275-305). The frame-deadline
check is a statement of its own; the load branches run after it on the state
it leaves. `load` is an `int`: it is converted to `unsigned int` for the two
threshold comparisons and to `unsigned long` for the product with the current
frequency, which wraps before the division by 10. -/
def on3demand_predict (t : Target) (be : Backend) (odd : on3demand_data) :
    on3demand_data × List Action :=
  let load := be.load
  let s1 : on3demand_data × List Action :=
    if be.delta_active > odd.frame_done_deadline then
      ({ odd with low_load_cnt := 0 }, [Action.set_freq_request be.freq_max])
    else (odd, [])
  if to_uint load ≥ s1.1.up_threshold then
    ({ s1.1 with low_load_cnt := 0 }, s1.2 ++ [Action.set_freq_request be.freq_max])
  else if to_uint load ≤ s1.1.down_threshold then
    if s1.1.low_load_cnt = s1.1.history_size then
      let freq := (be.freq * to_ulong t load) % ULONG_MOD t / 10
      ({ s1.1 with low_load_cnt := 0 }, s1.2 ++ [Action.set_freq_request freq])
    else
      ({ s1.1 with low_load_cnt := (s1.1.low_load_cnt + 1) % UINT_MOD }, s1.2)
  else
    ({ s1.1 with low_load_cnt := 0 }, s1.2)

/-- The function `on3demand_active` (source lines 308-317). -/
def on3demand_active (t : Target) (be : Backend) (odd : on3demand_data) :
    on3demand_data × List Action :=
  if !odd.polling_enabled then
    ({ odd with low_load_cnt := 0, polling_enabled := true },
      [Action.set_freq_request be.freq_max, Action.schedule_delayed_work (poll_delay t odd)])
  else (odd, [])

/-- The function `on3demand_frame_done` (source lines 319-326): the timer is
cancelled and rescheduled first, when polling is enabled, and
`on3demand_predict` runs afterwards in either case. -/
def on3demand_frame_done (t : Target) (be : Backend) (odd : on3demand_data) :
    on3demand_data × List Action :=
  let pre : List Action :=
    if odd.polling_enabled then
      [Action.cancel_delayed_work_sync, Action.schedule_delayed_work (poll_delay t odd)]
    else []
  let r := on3demand_predict t be odd
  (r.1, pre ++ r.2)

/-- The function `on3demand_timeout` (source lines 328-343). The delayed work
that invoked it is no longer pending while it runs. -/
def on3demand_timeout (t : Target) (be : Backend) (odd : on3demand_data) :
    on3demand_data × List Action :=
  if be.delta_active = 0 then
    ({ odd with low_load_cnt := 0, polling_enabled := false },
      [Action.set_freq_request be.freq_min])
  else
    let r := on3demand_predict t be odd
    let odd := { r.1 with polling_enabled := true }
    (odd, r.2 ++ [Action.schedule_delayed_work (poll_delay t odd)])

/-! ## Derived notions used to state the properties -/

/-- The frequency requests among a list of actions, in order. -/
def freq_requests : List Action → List Nat
  | [] => []
  | Action.set_freq_request f :: as => f :: freq_requests as
  | _ :: as => freq_requests as

/-- Consecutive calls of `on3demand_predict`, one per backend reading, with all
emitted actions collected in order. -/
def predict_calls (t : Target) : List Backend → on3demand_data → on3demand_data × List Action
  | [], odd => (odd, [])
  | be :: bes, odd =>
    let r := on3demand_predict t be odd
    let r2 := predict_calls t bes r.1
    (r2.1, r.2 ++ r2.2)

/-- The defaults `ON3DEMAND_DEFAULT_*` with the counter at 0 and polling
disabled: the field values `on3demand_start` assigns. -/
def default_data : on3demand_data :=
  { up_threshold := ON3DEMAND_DEFAULT_UP_THRESHOLD,
    down_threshold := ON3DEMAND_DEFAULT_DOWN_THRESHOLD,
    history_size := ON3DEMAND_DEFAULT_HISTORY_SIZE_THRESHOLD,
    low_load_cnt := 0,
    poll_interval := ON3DEMAND_DEFAULT_POLL_INTERVAL,
    frame_done_deadline := ON3DEMAND_DEFAULT_FRAME_DONE_DEADLINE_MS,
    polling_enabled := false }

/-- A sample target for concrete evaluations: 32-bit `unsigned long` and
`HZ = 128`, as on an OMAP4 build. -/
def omap4 : Target := { HZ := 128, BITS_PER_LONG := 32 }

/-- Requests issued by the frame-deadline check at the top of
`on3demand_predict`. -/
def deadline_requests (be : Backend) (odd : on3demand_data) : List Action :=
  if be.delta_active > odd.frame_done_deadline then
    [Action.set_freq_request be.freq_max]
  else []

/-- Value of `low_load_cnt` once the frame-deadline check has run. -/
def deadline_cnt (be : Backend) (odd : on3demand_data) : Nat :=
  if be.delta_active > odd.frame_done_deadline then 0 else odd.low_load_cnt

/-- A backend reading that `on3demand_predict` classifies as low load without
the frame-deadline check firing: the load is a non-negative `int`, at most
`down_threshold`, below `up_threshold`, and `delta_active` does not exceed
`frame_done_deadline`. -/
def low_load (odd : on3demand_data) (be : Backend) : Prop :=
  0 ≤ be.load ∧ be.load < 2 ^ 31 ∧
  be.load ≤ (odd.down_threshold : Int) ∧ be.load < (odd.up_threshold : Int) ∧
  be.delta_active ≤ odd.frame_done_deadline

instance (odd : on3demand_data) (be : Backend) : Decidable (low_load odd be) := by
  unfold low_load
  infer_instance

/-- The timer calls among a list of actions, in order. -/
def timer_ops : List Action → List Action
  | [] => []
  | Action.set_freq_request _ :: as => timer_ops as
  | a :: as => a :: timer_ops as

/-! ## Runs of the governor -/

/-- One invocation of the governor from outside: a framework event, a firing
of the delayed work, a direct call of `on3demand_predict`, or a sysfs write
with the outcome of its `sscanf`. -/
inductive Event where
  | active (be : Backend)
  | frame_done (be : Backend)
  | timeout (be : Backend)
  | predict (be : Backend)
  | write (a : Attr) (scan : Option Nat) (count : Nat)
  deriving DecidableEq, Repr

/-- The entry point an event invokes, applied to the governor data. -/
def handle (t : Target) (e : Event) (odd : on3demand_data) : on3demand_data × List Action :=
  match e with
  | .active be => on3demand_active t be odd
  | .frame_done be => on3demand_frame_done t be odd
  | .timeout be => on3demand_timeout t be odd
  | .predict be => on3demand_predict t be odd
  | .write a scan count => ((store a scan count odd).1, [])

/-- The governor data after a sequence of invocations, in any order and with
no regard to whether a timer was pending. -/
def handle_all (t : Target) : List Event → on3demand_data → on3demand_data
  | [], odd => odd
  | e :: es, odd => handle_all t es (handle t e odd).1

/-- The governor data together with the number of pending re-evaluations of
the delayed work `odd.work`. -/
structure System where
  odd : on3demand_data
  pending : Nat
  deriving DecidableEq, Repr

/-- Modelled from the spec: the scheduling contract of the delayed-work
primitives, whose code is not part of the governor source. A
`schedule_delayed_work` adds one pending re-evaluation, a
`cancel_delayed_work_sync` removes every pending one, and a frequency request
leaves the timer alone. -/
def timer_effect : List Action → Nat → Nat
  | [], p => p
  | Action.set_freq_request _ :: as, p => timer_effect as p
  | Action.schedule_delayed_work _ :: as, p => timer_effect as (p + 1)
  | Action.cancel_delayed_work_sync :: as, _ => timer_effect as 0

/-- One step of the system. The delayed work fires only while a re-evaluation
is pending and consumes it before `on3demand_timeout` runs; with nothing
pending a firing cannot happen and the system stays as it is. Every other
event runs its entry point. -/
def step (t : Target) (e : Event) (s : System) : System :=
  match e with
  | .timeout be =>
    if s.pending = 0 then s
    else
      let r := on3demand_timeout t be s.odd
      { odd := r.1, pending := timer_effect r.2 (s.pending - 1) }
  | .active be =>
    let r := on3demand_active t be s.odd
    { odd := r.1, pending := timer_effect r.2 s.pending }
  | .frame_done be =>
    let r := on3demand_frame_done t be s.odd
    { odd := r.1, pending := timer_effect r.2 s.pending }
  | .predict be =>
    let r := on3demand_predict t be s.odd
    { odd := r.1, pending := timer_effect r.2 s.pending }
  | .write a scan count =>
    { odd := (store a scan count s.odd).1, pending := s.pending }

/-- A run of the system over a sequence of events. -/
def run (t : Target) : List Event → System → System
  | [], s => s
  | e :: es, s => run t es (step t e s)

/-- The system right after `on3demand_start`: the data it assigned and a
freshly initialised delayed work, with nothing pending. -/
def started (sysfs_ret : Int) (odd : on3demand_data) : System :=
  { odd := (on3demand_start sysfs_ret odd).1.1, pending := 0 }

/-- The documented ranges of the five tunable parameters. -/
def params_ok (odd : on3demand_data) : Prop :=
  odd.up_threshold ≤ 100 ∧ odd.down_threshold ≤ 100 ∧ 1 ≤ odd.history_size ∧
  1 ≤ odd.poll_interval ∧ 1 ≤ odd.frame_done_deadline

/-- Two governor states agree on the five tunable parameters. -/
def same_params (a b : on3demand_data) : Prop :=
  a.up_threshold = b.up_threshold ∧ a.down_threshold = b.down_threshold ∧
  a.history_size = b.history_size ∧ a.poll_interval = b.poll_interval ∧
  a.frame_done_deadline = b.frame_done_deadline

/-- Every payload that parsed in a sequence of events is an `unsigned int`,
as `sscanf("%u")` stores it. -/
def uint_writes (evs : List Event) : Prop :=
  ∀ a v count, Event.write a (some v) count ∈ evs → v < UINT_MOD

/-- The polling-state invariant: polling is enabled exactly when one
re-evaluation is pending, and no more than one is ever pending. -/
def polling_inv (s : System) : Prop :=
  (s.odd.polling_enabled = true ↔ s.pending = 1) ∧ s.pending ≤ 1

/-! ## The statements of `on3demand_predict`, one at a time

`on3demand_predict` takes no lock, so another context can run between two of
its statements. These definitions cut the function at its statement
boundaries; `predict_statements` shows that run back to back they are
`on3demand_predict`. -/

/-- Outcome of the comparisons of `load` with the two thresholds (source lines
290 and 293). -/
inductive Branch where
  | up
  | down
  | band
  deriving DecidableEq, Repr

/-- The frame-deadline statement (source lines 284-287). -/
def predict_deadline (be : Backend) (odd : on3demand_data) : on3demand_data × List Action :=
  if be.delta_active > odd.frame_done_deadline then
    ({ odd with low_load_cnt := 0 }, [Action.set_freq_request be.freq_max])
  else (odd, [])

/-- The threshold comparisons that select a branch (source lines 290, 293). -/
def predict_compare (be : Backend) (odd : on3demand_data) : Branch :=
  if to_uint be.load ≥ odd.up_threshold then Branch.up
  else if to_uint be.load ≤ odd.down_threshold then Branch.down
  else Branch.band

/-- The body of the selected branch (source lines 291-292, 294-301, 303). -/
def predict_branch (t : Target) (br : Branch) (be : Backend) (odd : on3demand_data) :
    on3demand_data × List Action :=
  match br with
  | .up => ({ odd with low_load_cnt := 0 }, [Action.set_freq_request be.freq_max])
  | .down =>
    if odd.low_load_cnt = odd.history_size then
      ({ odd with low_load_cnt := 0 },
        [Action.set_freq_request ((be.freq * to_ulong t be.load) % ULONG_MOD t / 10)])
    else ({ odd with low_load_cnt := (odd.low_load_cnt + 1) % UINT_MOD }, [])
  | .band => ({ odd with low_load_cnt := 0 }, [])

/-! ## Conversion lemmas -/

theorem to_uint_of_nonneg (x : Int) (h0 : 0 ≤ x) (h1 : x < 2 ^ 31) :
    to_uint x = x.toNat := by
  unfold to_uint UINT_MOD
  have : x % ((2 ^ 32 : Nat) : Int) = x := by
    apply Int.emod_eq_of_lt h0
    norm_num
    omega
  rw [this]

theorem to_ulong_mul_mod (t : Target) (f : Nat) (x : Int) (h0 : 0 ≤ x) :
    (f * to_ulong t x) % ULONG_MOD t = (f * x.toNat) % 2 ^ t.BITS_PER_LONG := by
  unfold to_ulong
  obtain ⟨n, rfl⟩ := Int.eq_ofNat_of_zero_le h0
  have hn : ((n : Int) % (ULONG_MOD t : Int)).toNat = n % ULONG_MOD t := by
    have h := Int.toNat_natCast (n % ULONG_MOD t)
    rwa [Int.natCast_mod] at h
  rw [hn]
  simp [Nat.mul_mod, ULONG_MOD]

/-! ## The shape of one `on3demand_predict` call -/

/-- One call of `on3demand_predict`, with the frame-deadline check factored
out of the load branches. -/
theorem predict_unfold (t : Target) (be : Backend) (odd : on3demand_data) :
    on3demand_predict t be odd =
      if to_uint be.load ≥ odd.up_threshold then
        ({ odd with low_load_cnt := 0 },
          deadline_requests be odd ++ [Action.set_freq_request be.freq_max])
      else if to_uint be.load ≤ odd.down_threshold then
        if deadline_cnt be odd = odd.history_size then
          ({ odd with low_load_cnt := 0 },
            deadline_requests be odd ++
              [Action.set_freq_request ((be.freq * to_ulong t be.load) % ULONG_MOD t / 10)])
        else
          ({ odd with low_load_cnt := (deadline_cnt be odd + 1) % UINT_MOD },
            deadline_requests be odd)
      else ({ odd with low_load_cnt := 0 }, deadline_requests be odd) := by
  unfold on3demand_predict deadline_requests deadline_cnt
  by_cases hd : be.delta_active > odd.frame_done_deadline
  · simp only [hd, if_true]
  · simp only [hd, if_false]

/-- `on3demand_predict` writes no field other than `low_load_cnt`. -/
theorem predict_state (t : Target) (be : Backend) (odd : on3demand_data) :
    (on3demand_predict t be odd).1 =
      { odd with low_load_cnt := (on3demand_predict t be odd).1.low_load_cnt } := by
  rw [predict_unfold]
  split_ifs <;> rfl

/-- `on3demand_predict` touches no timer. -/
theorem predict_timer_ops (t : Target) (be : Backend) (odd : on3demand_data) :
    timer_ops (on3demand_predict t be odd).2 = [] := by
  rw [predict_unfold]
  unfold deadline_requests
  split_ifs <;> simp [timer_ops]

/-- A low-load reading takes the `load <= down_threshold` branch with the
counter untouched by the deadline check. -/
theorem predict_low_load (t : Target) (be : Backend) (odd : on3demand_data)
    (h : low_load odd be) :
    on3demand_predict t be odd =
      if odd.low_load_cnt = odd.history_size then
        ({ odd with low_load_cnt := 0 },
          [Action.set_freq_request ((be.freq * be.load.toNat) % 2 ^ t.BITS_PER_LONG / 10)])
      else ({ odd with low_load_cnt := (odd.low_load_cnt + 1) % UINT_MOD }, []) := by
  obtain ⟨h0, h1, hdown, hup, hd⟩ := h
  have hu : to_uint be.load = be.load.toNat := to_uint_of_nonneg _ h0 h1
  have h2 : ¬ to_uint be.load ≥ odd.up_threshold := by rw [hu]; omega
  have h3 : to_uint be.load ≤ odd.down_threshold := by rw [hu]; omega
  have h4 : ¬ be.delta_active > odd.frame_done_deadline := by omega
  rw [predict_unfold, if_neg h2, if_pos h3, to_ulong_mul_mod t _ _ h0]
  simp [deadline_cnt, deadline_requests, h4]

/-- Low-load calls that do not reach the window only count. -/
theorem predict_calls_low_load (t : Target) (bes : List Backend) :
    ∀ odd : on3demand_data, odd.history_size < UINT_MOD →
      odd.low_load_cnt + bes.length ≤ odd.history_size →
      (∀ b ∈ bes, low_load odd b) →
      predict_calls t bes odd =
        ({ odd with low_load_cnt := odd.low_load_cnt + bes.length }, []) := by
  induction bes with
  | nil => intro odd _ _ _; rfl
  | cons b bs ih =>
    intro odd hn hlen hlow
    have hb : low_load odd b := hlow b (List.mem_cons_self _ _)
    simp only [List.length_cons] at hlen
    have hne : ¬ odd.low_load_cnt = odd.history_size := by omega
    have hmod : (odd.low_load_cnt + 1) % UINT_MOD = odd.low_load_cnt + 1 :=
      Nat.mod_eq_of_lt (by omega)
    have hstep := predict_low_load t b odd hb
    rw [if_neg hne, hmod] at hstep
    have hrest := ih { odd with low_load_cnt := odd.low_load_cnt + 1 } hn
      (by simp only; omega)
      (fun x hx => hlow x (List.mem_cons_of_mem _ hx))
    simp only [predict_calls, hstep, hrest, List.length_cons, List.append_nil]
    congr 2
    omega

/-! ## Action lists and stores -/

theorem freq_requests_append (l1 l2 : List Action) :
    freq_requests (l1 ++ l2) = freq_requests l1 ++ freq_requests l2 := by
  induction l1 with
  | nil => rfl
  | cons a as ih => cases a <;> simp [freq_requests, ih]

theorem timer_ops_append (l1 l2 : List Action) :
    timer_ops (l1 ++ l2) = timer_ops l1 ++ timer_ops l2 := by
  induction l1 with
  | nil => rfl
  | cons a as ih => cases a <;> simp [timer_ops, ih]

/-- A write whose payload parsed succeeds with the byte count and zeroes the
counter. -/
theorem store_some (a : Attr) (v count : Nat) (odd : on3demand_data) :
    (store a (some v) count odd).1.low_load_cnt = 0 ∧
    (store a (some v) count odd).2 = Except.ok count := by
  cases a <;> exact ⟨rfl, rfl⟩

/-- No write can bring `history_size` below 1. -/
theorem store_history_size_pos (a : Attr) (scan : Option Nat) (count : Nat)
    (odd : on3demand_data) (h : 1 ≤ odd.history_size) :
    1 ≤ (store a scan count odd).1.history_size := by
  cases a <;> cases scan <;>
    simp only [store, store_down_threshold, store_up_threshold, store_history_size,
      store_poll_interval, store_frame_done_deadline] <;> first | exact h | skip
  split_ifs <;> omega

/-! ## Properties of `on3demand_predict` -/

/-- C1: for every state and every backend reading whose load is at least
`up_threshold` (whatever `down_threshold`, the prior counter and
`delta_active` are), `on3demand_predict` changes nothing but `low_load_cnt`,
which it leaves at 0, and every action it emits is a request for the maximum
frequency: one such request, or two when the frame-deadline check fired as
well. -/
theorem predict_up_threshold_requests_max (t : Target) (be : Backend) (odd : on3demand_data)
    (hint : be.load < 2 ^ 31) (hup : (odd.up_threshold : Int) ≤ be.load) :
    (on3demand_predict t be odd).1 = { odd with low_load_cnt := 0 } ∧
    (on3demand_predict t be odd).1.low_load_cnt = 0 ∧
    (on3demand_predict t be odd).2 =
      (if be.delta_active > odd.frame_done_deadline then
        [Action.set_freq_request be.freq_max, Action.set_freq_request be.freq_max]
       else [Action.set_freq_request be.freq_max]) ∧
    (∀ a ∈ (on3demand_predict t be odd).2, a = Action.set_freq_request be.freq_max) := by
  have h0 : 0 ≤ be.load := le_trans (Int.ofNat_nonneg _) hup
  have hu : to_uint be.load ≥ odd.up_threshold := by
    rw [to_uint_of_nonneg _ h0 hint]; omega
  rw [predict_unfold, if_pos hu]
  unfold deadline_requests
  split_ifs <;> simp

/-- Witness for C1: the defaults with `load = 96`. -/
theorem predict_up_threshold_requests_max_witness :
    (on3demand_predict omap4
        { load := 96, delta_active := 0, freq := 100, freq_min := 50, freq_max := 300 }
        default_data).1 = { default_data with low_load_cnt := 0 } ∧
    (on3demand_predict omap4
        { load := 96, delta_active := 0, freq := 100, freq_min := 50, freq_max := 300 }
        default_data).2 = [Action.set_freq_request 300] := by
  have h := predict_up_threshold_requests_max omap4
    { load := 96, delta_active := 0, freq := 100, freq_min := 50, freq_max := 300 }
    default_data (by decide) (by decide)
  exact ⟨h.1, h.2.2.1⟩

/-- C2, as stated, fails: with the defaults, `history_size = 3`, the counter at
0 and three consecutive calls with `load = 70`, the third call issues no
request and leaves the counter at 3 (not a request for `100 * 70 / 10` and the
counter at 0). -/
theorem predict_third_call_counterexample :
    predict_calls omap4
        [{ load := 70, delta_active := 0, freq := 100, freq_min := 50, freq_max := 300 },
         { load := 70, delta_active := 0, freq := 100, freq_min := 50, freq_max := 300 },
         { load := 70, delta_active := 0, freq := 100, freq_min := 50, freq_max := 300 }]
        { default_data with history_size := 3 } =
      ({ default_data with history_size := 3, low_load_cnt := 3 }, []) ∧
    ¬ ((on3demand_predict omap4
          { load := 70, delta_active := 0, freq := 100, freq_min := 50, freq_max := 300 }
          { default_data with history_size := 3, low_load_cnt := 2 }).2
          = [Action.set_freq_request 700] ∧
       (on3demand_predict omap4
          { load := 70, delta_active := 0, freq := 100, freq_min := 50, freq_max := 300 }
          { default_data with history_size := 3, low_load_cnt := 2 }).1.low_load_cnt = 0) := by
  decide

/-- C2, amended: let `n = history_size` (an `unsigned int`), start from
`low_load_cnt = 0`, and let every reading be low load (`0 <= load`,
`load <= down_threshold`, `load < up_threshold`) with `delta_active` not above
`frame_done_deadline`. Then `n + 1` consecutive calls of `on3demand_predict`
behave as follows: for every `k <= n` the first `k` calls have issued no
request and left the counter at `k` (so the calls leave it at 1, 2, ..., n),
and call `n + 1` issues exactly one request, for
`(freq * load) mod 2^BITS_PER_LONG / 10`, and leaves the counter at 0. -/
theorem predict_low_load_window (t : Target) (odd : on3demand_data)
    (bes : List Backend) (be : Backend)
    (hcnt : odd.low_load_cnt = 0) (hn : odd.history_size < UINT_MOD)
    (hlen : bes.length = odd.history_size)
    (hlow : ∀ b ∈ be :: bes, low_load odd b) :
    (∀ k ≤ odd.history_size,
      predict_calls t (bes.take k) odd = ({ odd with low_load_cnt := k }, [])) ∧
    on3demand_predict t be (predict_calls t bes odd).1 =
      ({ odd with low_load_cnt := 0 },
        [Action.set_freq_request
          ((be.freq * be.load.toNat) % 2 ^ t.BITS_PER_LONG / 10)]) := by
  have hpre : ∀ k ≤ odd.history_size,
      predict_calls t (bes.take k) odd = ({ odd with low_load_cnt := k }, []) := by
    intro k hk
    have hl : (bes.take k).length = k := by
      rw [List.length_take]; omega
    have h := predict_calls_low_load t (bes.take k) odd hn (by omega)
      (fun b hb => hlow b (List.mem_cons_of_mem _ (List.mem_of_mem_take hb)))
    rw [h, hl, hcnt, Nat.zero_add]
  refine ⟨hpre, ?_⟩
  have hall := hpre odd.history_size (Nat.le_refl _)
  have htake : bes.take odd.history_size = bes := by
    rw [← hlen]; exact List.take_length bes
  rw [htake] at hall
  rw [hall]
  have hb : low_load { odd with low_load_cnt := odd.history_size } be :=
    hlow be (List.mem_cons_self _ _)
  rw [predict_low_load t be _ hb]
  simp

/-- Witness for C2 amended: the defaults with `history_size = 3` and four
calls with `load = 70`: nothing during the first three calls, counter 3, then
a request for `100 * 70 / 10` and the counter back at 0. -/
theorem predict_low_load_window_witness :
    predict_calls omap4
        (List.take 3
          [{ load := 70, delta_active := 0, freq := 100, freq_min := 50, freq_max := 300 },
           { load := 70, delta_active := 0, freq := 100, freq_min := 50, freq_max := 300 },
           { load := 70, delta_active := 0, freq := 100, freq_min := 50, freq_max := 300 }])
        { default_data with history_size := 3 } =
      ({ default_data with history_size := 3, low_load_cnt := 3 }, []) ∧
    on3demand_predict omap4
        { load := 70, delta_active := 0, freq := 100, freq_min := 50, freq_max := 300 }
        (predict_calls omap4
          [{ load := 70, delta_active := 0, freq := 100, freq_min := 50, freq_max := 300 },
           { load := 70, delta_active := 0, freq := 100, freq_min := 50, freq_max := 300 },
           { load := 70, delta_active := 0, freq := 100, freq_min := 50, freq_max := 300 }]
          { default_data with history_size := 3 }).1 =
      ({ default_data with history_size := 3, low_load_cnt := 0 },
        [Action.set_freq_request 700]) := by
  have h := predict_low_load_window omap4 { default_data with history_size := 3 }
    [{ load := 70, delta_active := 0, freq := 100, freq_min := 50, freq_max := 300 },
     { load := 70, delta_active := 0, freq := 100, freq_min := 50, freq_max := 300 },
     { load := 70, delta_active := 0, freq := 100, freq_min := 50, freq_max := 300 }]
    { load := 70, delta_active := 0, freq := 100, freq_min := 50, freq_max := 300 }
    rfl (by decide) rfl (by decide)
  exact ⟨h.1 3 (by decide), h.2⟩

/-- C3: for a load in the low-load branch (`0 <= load <= down_threshold`,
`load < up_threshold`), `on3demand_predict` issues a request from that branch
exactly when the counter, as the frame-deadline check left it, equals
`history_size`; the request is the last action of the call, its value is
`(freq * load) mod 2^BITS_PER_LONG / 10` with `freq` the `sgxfreq_get_freq()`
reading of that call (product first, wrapped to an `unsigned long`, then
truncating division by 10), and `low_load_cnt` is 0 afterwards. Otherwise the
branch issues nothing and the counter is incremented. -/
theorem predict_low_branch_request (t : Target) (be : Backend) (odd : on3demand_data)
    (h0 : 0 ≤ be.load) (hint : be.load < 2 ^ 31)
    (hdown : be.load ≤ (odd.down_threshold : Int))
    (hup : be.load < (odd.up_threshold : Int)) :
    on3demand_predict t be odd =
      if deadline_cnt be odd = odd.history_size then
        ({ odd with low_load_cnt := 0 },
          deadline_requests be odd ++
            [Action.set_freq_request
              ((be.freq * be.load.toNat) % 2 ^ t.BITS_PER_LONG / 10)])
      else
        ({ odd with low_load_cnt := (deadline_cnt be odd + 1) % 2 ^ 32 },
          deadline_requests be odd) := by
  have hu : to_uint be.load = be.load.toNat := to_uint_of_nonneg _ h0 hint
  have h2 : ¬ to_uint be.load ≥ odd.up_threshold := by rw [hu]; omega
  have h3 : to_uint be.load ≤ odd.down_threshold := by rw [hu]; omega
  rw [predict_unfold, if_neg h2, if_pos h3, to_ulong_mul_mod t _ _ h0]
  rfl

/-- Witness for C3: the defaults with the counter at `history_size = 10`,
`load = 70` and a current frequency of 307 200 000 Hz: the product
21 504 000 000 wraps to 29 163 520 in 32 bits, and the request is for
2 916 352. -/
theorem predict_low_branch_request_witness :
    on3demand_predict omap4
        { load := 70, delta_active := 0, freq := 307200000, freq_min := 153600000,
          freq_max := 384000000 }
        { default_data with low_load_cnt := 10 } =
      ({ default_data with low_load_cnt := 0 }, [Action.set_freq_request 2916352]) :=
  (predict_low_branch_request omap4
    { load := 70, delta_active := 0, freq := 307200000, freq_min := 153600000,
      freq_max := 384000000 }
    { default_data with low_load_cnt := 10 }
    (by decide) (by decide) (by decide) (by decide)).trans (by decide)

/-- C4: for every state and every load strictly between `down_threshold` and
`up_threshold`, when `delta_active` does not exceed `frame_done_deadline`,
`on3demand_predict` emits no action at all and returns the state it was given
with `low_load_cnt` set to 0. -/
theorem predict_dead_band (t : Target) (be : Backend) (odd : on3demand_data)
    (hint : be.load < 2 ^ 31)
    (hdown : (odd.down_threshold : Int) < be.load)
    (hup : be.load < (odd.up_threshold : Int))
    (hd : be.delta_active ≤ odd.frame_done_deadline) :
    on3demand_predict t be odd = ({ odd with low_load_cnt := 0 }, []) := by
  have h0 : 0 ≤ be.load := le_of_lt (lt_of_le_of_lt (Int.ofNat_nonneg _) hdown)
  have hu : to_uint be.load = be.load.toNat := to_uint_of_nonneg _ h0 hint
  have h2 : ¬ to_uint be.load ≥ odd.up_threshold := by rw [hu]; omega
  have h3 : ¬ to_uint be.load ≤ odd.down_threshold := by rw [hu]; omega
  have h4 : ¬ be.delta_active > odd.frame_done_deadline := by omega
  rw [predict_unfold, if_neg h2, if_neg h3]
  simp [deadline_requests, h4]

/-- Witness for C4: the defaults with the counter at 5 and `load = 80`. -/
theorem predict_dead_band_witness :
    on3demand_predict omap4
        { load := 80, delta_active := 16, freq := 100, freq_min := 50, freq_max := 300 }
        { default_data with low_load_cnt := 5 } =
      ({ default_data with low_load_cnt := 0 }, []) :=
  predict_dead_band omap4
    { load := 80, delta_active := 16, freq := 100, freq_min := 50, freq_max := 300 }
    { default_data with low_load_cnt := 5 } (by decide) (by decide) (by decide) (by decide)

/-- C5, as stated, fails: with the defaults, `delta_active = 20 > 16` and
`load = 70 <= down_threshold`, `on3demand_predict` requests the maximum
frequency but returns with `low_load_cnt = 1`, not 0. -/
theorem predict_deadline_low_load_counterexample :
    (20 : Nat) > default_data.frame_done_deadline ∧
    on3demand_predict omap4
        { load := 70, delta_active := 20, freq := 100, freq_min := 50, freq_max := 300 }
        default_data =
      ({ default_data with low_load_cnt := 1 }, [Action.set_freq_request 300]) ∧
    (on3demand_predict omap4
        { load := 70, delta_active := 20, freq := 100, freq_min := 50, freq_max := 300 }
        default_data).1.low_load_cnt ≠ 0 := by
  decide

/-- C5, amended: for every state and every load, if
`delta_active > frame_done_deadline` then the first action of
`on3demand_predict` is a request for the maximum frequency, issued with the
counter reset to 0 before the load branches run. On return `low_load_cnt` is 0
when `load >= up_threshold` or `load > down_threshold`, and it is 1 when
`load < up_threshold`, `load <= down_threshold` and `history_size` is not 0
(the comparisons being those of the code, on the load converted to
`unsigned int`). -/
theorem predict_deadline_requests_max (t : Target) (be : Backend) (odd : on3demand_data)
    (hd : be.delta_active > odd.frame_done_deadline) :
    (∃ rest, (on3demand_predict t be odd).2 = Action.set_freq_request be.freq_max :: rest) ∧
    (to_uint be.load ≥ odd.up_threshold ∨ to_uint be.load > odd.down_threshold →
      (on3demand_predict t be odd).1.low_load_cnt = 0) ∧
    (to_uint be.load < odd.up_threshold → to_uint be.load ≤ odd.down_threshold →
      odd.history_size ≠ 0 →
      on3demand_predict t be odd =
        ({ odd with low_load_cnt := 1 }, [Action.set_freq_request be.freq_max])) := by
  have hc : deadline_cnt be odd = 0 := by simp [deadline_cnt, hd]
  have hr : deadline_requests be odd = [Action.set_freq_request be.freq_max] := by
    simp [deadline_requests, hd]
  rw [predict_unfold, hc, hr]
  refine ⟨?_, ?_, ?_⟩
  · split_ifs <;> simp
  · intro h
    split_ifs <;> first | rfl | omega
  · intro h1 h2 h3
    have h4 : ¬ (0 = odd.history_size) := fun h => h3 h.symm
    rw [if_neg (by omega), if_pos h2, if_neg h4]
    rfl

/-- Witness for C5 amended: the defaults with `delta_active = 20`, once with
`load = 80` (counter 0 on return) and once with `load = 70` (counter 1). -/
theorem predict_deadline_requests_max_witness :
    (on3demand_predict omap4
        { load := 80, delta_active := 20, freq := 100, freq_min := 50, freq_max := 300 }
        { default_data with low_load_cnt := 7 }).1.low_load_cnt = 0 ∧
    on3demand_predict omap4
        { load := 70, delta_active := 20, freq := 100, freq_min := 50, freq_max := 300 }
        { default_data with low_load_cnt := 7 } =
      ({ default_data with low_load_cnt := 1 }, [Action.set_freq_request 300]) :=
  ⟨(predict_deadline_requests_max omap4
      { load := 80, delta_active := 20, freq := 100, freq_min := 50, freq_max := 300 }
      { default_data with low_load_cnt := 7 } (by decide)).2.1 (by decide),
   (predict_deadline_requests_max omap4
      { load := 70, delta_active := 20, freq := 100, freq_min := 50, freq_max := 300 }
      { default_data with low_load_cnt := 7 } (by decide)).2.2
      (by decide) (by decide) (by decide)⟩

/-! ## Configuration writes and the hysteresis counter -/

/-- C6: every successful write (`store` of any of the five attributes with a
payload that parsed) returns the byte count and leaves `low_load_cnt = 0`.
Observable form: start from `low_load_cnt = 0` with `history_size = n >= 1`,
drive the counter to `n - 1` with `n - 1` low-load calls of
`on3demand_predict` (none of which issues a request), write any attribute, and
make one more call that is low load for the thresholds and deadline in force
after the write: that call emits no action at all and leaves the counter
at 1. -/
theorem store_resets_low_load_cnt (t : Target) (a : Attr) (v count : Nat)
    (odd : on3demand_data) (bes : List Backend) (be : Backend)
    (hcnt : odd.low_load_cnt = 0) (hn1 : 1 ≤ odd.history_size)
    (hn : odd.history_size < UINT_MOD)
    (hlen : bes.length = odd.history_size - 1)
    (hlow : ∀ b ∈ bes, low_load odd b)
    (hbe : low_load (store a (some v) count (predict_calls t bes odd).1).1 be) :
    (∀ s : on3demand_data, (store a (some v) count s).1.low_load_cnt = 0 ∧
      (store a (some v) count s).2 = Except.ok count) ∧
    predict_calls t bes odd = ({ odd with low_load_cnt := odd.history_size - 1 }, []) ∧
    (on3demand_predict t be (store a (some v) count (predict_calls t bes odd).1).1).2 = [] ∧
    (on3demand_predict t be
      (store a (some v) count (predict_calls t bes odd).1).1).1.low_load_cnt = 1 := by
  have hrun := predict_calls_low_load t bes odd hn (by omega) hlow
  rw [hcnt, Nat.zero_add, hlen] at hrun
  refine ⟨fun s => store_some a v count s, hrun, ?_⟩
  have hpos : 1 ≤ (predict_calls t bes odd).1.history_size := by rw [hrun]; exact hn1
  have h1 := store_history_size_pos a (some v) count _ hpos
  have h2 := (store_some a v count (predict_calls t bes odd).1).1
  have hne : ¬ (store a (some v) count (predict_calls t bes odd).1).1.low_load_cnt =
      (store a (some v) count (predict_calls t bes odd).1).1.history_size := by omega
  rw [predict_low_load t be _ hbe, if_neg hne, h2]
  exact ⟨rfl, rfl⟩

/-- Witness for C6: the defaults with `history_size = 3`, two calls with
`load = 70`, a write of 90 to `up_threshold`, and one more call with
`load = 70`. -/
theorem store_resets_low_load_cnt_witness :
    predict_calls omap4
        [{ load := 70, delta_active := 0, freq := 100, freq_min := 50, freq_max := 300 },
         { load := 70, delta_active := 0, freq := 100, freq_min := 50, freq_max := 300 }]
        { default_data with history_size := 3 } =
      ({ default_data with history_size := 3, low_load_cnt := 2 }, []) ∧
    (on3demand_predict omap4
        { load := 70, delta_active := 0, freq := 100, freq_min := 50, freq_max := 300 }
        (store Attr.up_threshold (some 90) 3
          (predict_calls omap4
            [{ load := 70, delta_active := 0, freq := 100, freq_min := 50, freq_max := 300 },
             { load := 70, delta_active := 0, freq := 100, freq_min := 50, freq_max := 300 }]
            { default_data with history_size := 3 }).1).1).2 = [] := by
  have h := store_resets_low_load_cnt omap4 Attr.up_threshold 90 3
    { default_data with history_size := 3 }
    [{ load := 70, delta_active := 0, freq := 100, freq_min := 50, freq_max := 300 },
     { load := 70, delta_active := 0, freq := 100, freq_min := 50, freq_max := 300 }]
    { load := 70, delta_active := 0, freq := 100, freq_min := 50, freq_max := 300 }
    rfl (by decide) (by decide) rfl (by decide) (by decide)
  exact ⟨h.2.1, h.2.2.1⟩

/-! ## Event handlers -/

/-- C7: `on3demand_timeout` has two outcomes, decided by the `delta_active`
reading. When it is 0 the only action is a request for the minimum frequency,
`low_load_cnt` becomes 0, `polling_enabled` becomes false and nothing is
scheduled. When it is positive the handler returns the state of one
`on3demand_predict` call with `polling_enabled` set to true, and emits the
actions of that call followed by a single `schedule_delayed_work` whose delay
is `poll_interval * HZ / 1000` computed in `unsigned int`: its frequency
requests and its counter are those of `on3demand_predict`, and the one
scheduling is its only timer call. -/
theorem timeout_outcomes (t : Target) (be : Backend) (odd : on3demand_data) :
    (be.delta_active = 0 →
      on3demand_timeout t be odd =
        ({ odd with low_load_cnt := 0, polling_enabled := false },
          [Action.set_freq_request be.freq_min])) ∧
    (be.delta_active > 0 →
      on3demand_timeout t be odd =
        ({ (on3demand_predict t be odd).1 with polling_enabled := true },
          (on3demand_predict t be odd).2 ++
            [Action.schedule_delayed_work ((odd.poll_interval * t.HZ) % 2 ^ 32 / 1000)]) ∧
      freq_requests (on3demand_timeout t be odd).2 =
        freq_requests (on3demand_predict t be odd).2 ∧
      (on3demand_timeout t be odd).1.low_load_cnt =
        (on3demand_predict t be odd).1.low_load_cnt ∧
      (on3demand_timeout t be odd).1.polling_enabled = true ∧
      timer_ops (on3demand_timeout t be odd).2 =
        [Action.schedule_delayed_work ((odd.poll_interval * t.HZ) % 2 ^ 32 / 1000)]) := by
  have hpd : poll_delay t odd = (odd.poll_interval * t.HZ) % 2 ^ 32 / 1000 := rfl
  constructor
  · intro h
    simp [on3demand_timeout, h]
  · intro h
    have hne : ¬ be.delta_active = 0 := by omega
    have hp : poll_delay t { (on3demand_predict t be odd).1 with polling_enabled := true } =
        poll_delay t odd := by
      rw [predict_state]
      rfl
    have heq : on3demand_timeout t be odd =
        ({ (on3demand_predict t be odd).1 with polling_enabled := true },
          (on3demand_predict t be odd).2 ++
            [Action.schedule_delayed_work ((odd.poll_interval * t.HZ) % 2 ^ 32 / 1000)]) := by
      rw [← hpd]
      simp only [on3demand_timeout, if_neg hne, hp]
    refine ⟨heq, ?_, ?_, ?_, ?_⟩
    · rw [heq, freq_requests_append]
      simp [freq_requests]
    · rw [heq]
    · rw [heq]
    · rw [heq, timer_ops_append, predict_timer_ops]
      rfl

/-- Witness for C7: from the polling defaults, an idle interval
(`delta_active = 0`) and an active one (`delta_active = 5`, `load = 96`). -/
theorem timeout_outcomes_witness :
    on3demand_timeout omap4
        { load := 0, delta_active := 0, freq := 100, freq_min := 50, freq_max := 300 }
        { default_data with low_load_cnt := 4, polling_enabled := true } =
      (default_data, [Action.set_freq_request 50]) ∧
    on3demand_timeout omap4
        { load := 96, delta_active := 5, freq := 100, freq_min := 50, freq_max := 300 }
        { default_data with low_load_cnt := 4, polling_enabled := true } =
      ({ default_data with polling_enabled := true },
        [Action.set_freq_request 300, Action.schedule_delayed_work 9]) :=
  ⟨(timeout_outcomes omap4
      { load := 0, delta_active := 0, freq := 100, freq_min := 50, freq_max := 300 }
      { default_data with low_load_cnt := 4, polling_enabled := true }).1 rfl,
   ((timeout_outcomes omap4
      { load := 96, delta_active := 5, freq := 100, freq_min := 50, freq_max := 300 }
      { default_data with low_load_cnt := 4, polling_enabled := true }).2
        (by decide)).1.trans (by decide)⟩

/-- C8: in every state with `polling_enabled = false`, `on3demand_active`
emits exactly two actions, a request for the backend's maximum frequency and
then one `schedule_delayed_work` whose delay is `poll_interval * HZ / 1000`
computed in `unsigned int`; it sets `low_load_cnt = 0` and
`polling_enabled = true` and leaves the five tunable parameters as they
were. -/
theorem active_from_idle (t : Target) (be : Backend) (odd : on3demand_data)
    (h : odd.polling_enabled = false) :
    (on3demand_active t be odd).2 =
      [Action.set_freq_request be.freq_max,
       Action.schedule_delayed_work ((odd.poll_interval * t.HZ) % 2 ^ 32 / 1000)] ∧
    freq_requests (on3demand_active t be odd).2 = [be.freq_max] ∧
    (on3demand_active t be odd).1.low_load_cnt = 0 ∧
    (on3demand_active t be odd).1.polling_enabled = true ∧
    (on3demand_active t be odd).1.up_threshold = odd.up_threshold ∧
    (on3demand_active t be odd).1.down_threshold = odd.down_threshold ∧
    (on3demand_active t be odd).1.history_size = odd.history_size ∧
    (on3demand_active t be odd).1.poll_interval = odd.poll_interval ∧
    (on3demand_active t be odd).1.frame_done_deadline = odd.frame_done_deadline := by
  simp [on3demand_active, h, freq_requests, poll_delay, UINT_MOD]

/-- Witness for C8: the defaults as `on3demand_start` leaves them. -/
theorem active_from_idle_witness :
    (on3demand_active omap4
        { load := 0, delta_active := 0, freq := 100, freq_min := 50, freq_max := 300 }
        default_data).2 =
      [Action.set_freq_request 300,
       Action.schedule_delayed_work ((default_data.poll_interval * omap4.HZ) % 2 ^ 32 / 1000)] ∧
    (on3demand_active omap4
        { load := 0, delta_active := 0, freq := 100, freq_min := 50, freq_max := 300 }
        default_data).1.polling_enabled = true := by
  have h := active_from_idle omap4
    { load := 0, delta_active := 0, freq := 100, freq_min := 50, freq_max := 300 }
    default_data rfl
  exact ⟨h.1, h.2.2.2.1⟩

/-- C9: `on3demand_active` is idempotent: for every state, a second call right
after a first returns the state of the first call and emits no action (no
frequency request, no scheduling), whatever the backend reads. More generally,
in every state with `polling_enabled = true` the call returns the state
unchanged, `low_load_cnt` included, and emits no action. -/
theorem active_idempotent (t : Target) (be1 be2 : Backend) (odd : on3demand_data) :
    on3demand_active t be2 (on3demand_active t be1 odd).1 =
      ((on3demand_active t be1 odd).1, []) ∧
    (odd.polling_enabled = true → on3demand_active t be2 odd = (odd, [])) := by
  have hgen : ∀ s : on3demand_data, s.polling_enabled = true →
      on3demand_active t be2 s = (s, []) := by
    intro s hs
    simp [on3demand_active, hs]
  refine ⟨hgen _ ?_, hgen odd⟩
  unfold on3demand_active
  split_ifs with hp
  · rfl
  · simpa using hp

/-- Witness for C9: a polling state with the counter at 4. -/
theorem active_idempotent_witness :
    on3demand_active omap4
        { load := 0, delta_active := 0, freq := 100, freq_min := 50, freq_max := 300 }
        { default_data with low_load_cnt := 4, polling_enabled := true } =
      ({ default_data with low_load_cnt := 4, polling_enabled := true }, []) :=
  (active_idempotent omap4
    { load := 0, delta_active := 0, freq := 100, freq_min := 50, freq_max := 300 }
    { load := 0, delta_active := 0, freq := 100, freq_min := 50, freq_max := 300 }
    { default_data with low_load_cnt := 4, polling_enabled := true }).2 rfl

/-- C10: for every state, `on3demand_frame_done` returns the state of one
`on3demand_predict` call on the same state and readings, so `low_load_cnt` is
that of `on3demand_predict` and `polling_enabled` is unchanged. Its actions
are those of `on3demand_predict`, preceded, when `polling_enabled` is true, by
`cancel_delayed_work_sync` and one `schedule_delayed_work` whose delay is
`poll_interval * HZ / 1000` computed in `unsigned int`; when `polling_enabled`
is false it makes no timer call. -/
theorem frame_done_runs_predict (t : Target) (be : Backend) (odd : on3demand_data) :
    (on3demand_frame_done t be odd).1 = (on3demand_predict t be odd).1 ∧
    freq_requests (on3demand_frame_done t be odd).2 =
      freq_requests (on3demand_predict t be odd).2 ∧
    (on3demand_frame_done t be odd).1.polling_enabled = odd.polling_enabled ∧
    (on3demand_frame_done t be odd).2 =
      (if odd.polling_enabled then
        [Action.cancel_delayed_work_sync,
         Action.schedule_delayed_work ((odd.poll_interval * t.HZ) % 2 ^ 32 / 1000)]
       else []) ++ (on3demand_predict t be odd).2 ∧
    timer_ops (on3demand_frame_done t be odd).2 =
      (if odd.polling_enabled then
        [Action.cancel_delayed_work_sync,
         Action.schedule_delayed_work ((odd.poll_interval * t.HZ) % 2 ^ 32 / 1000)]
       else []) := by
  have hpd : poll_delay t odd = (odd.poll_interval * t.HZ) % 2 ^ 32 / 1000 := rfl
  rw [← hpd]
  refine ⟨rfl, ?_, ?_, rfl, ?_⟩
  · simp only [on3demand_frame_done, freq_requests_append]
    split_ifs <;> simp [freq_requests]
  · simp only [on3demand_frame_done]
    rw [predict_state]
  · simp only [on3demand_frame_done, timer_ops_append, predict_timer_ops]
    split_ifs <;> simp [timer_ops]

/-! ## Configuration writes -/

/-- C11: a write whose payload parsed as the number `v` is never rejected: it
returns the byte count, and the state afterwards is the state before with
`low_load_cnt` set to 0 and the written parameter set to the clamped value,
`min v 100` for `down_threshold` and `up_threshold`, `max v 1` for
`history_size`, `poll_interval` and `frame_done_deadline`; no other field
changes. -/
theorem store_clamps (v count : Nat) (odd : on3demand_data) :
    store_down_threshold (some v) count odd =
      ({ odd with down_threshold := min v 100, low_load_cnt := 0 }, Except.ok count) ∧
    store_up_threshold (some v) count odd =
      ({ odd with up_threshold := min v 100, low_load_cnt := 0 }, Except.ok count) ∧
    store_history_size (some v) count odd =
      ({ odd with history_size := max v 1, low_load_cnt := 0 }, Except.ok count) ∧
    store_poll_interval (some v) count odd =
      ({ odd with poll_interval := max v 1, low_load_cnt := 0 }, Except.ok count) ∧
    store_frame_done_deadline (some v) count odd =
      ({ odd with frame_done_deadline := max v 1, low_load_cnt := 0 }, Except.ok count) := by
  have hmin : (if v > 100 then 100 else v) = min v 100 := by
    split_ifs <;> omega
  have hmax : (if v < 1 then 1 else v) = max v 1 := by
    split_ifs <;> omega
  refine ⟨?_, ?_, ?_, ?_, ?_⟩
  · simp only [store_down_threshold, hmin]
  · simp only [store_up_threshold, hmin]
  · simp only [store_history_size, hmax]
  · simp only [store_poll_interval, hmax]
  · simp only [store_frame_done_deadline, hmax]

/-- C12: for each of the five store operations, a write whose payload did not
parse fails with `EINVAL` and returns the governor state exactly as it was,
`low_load_cnt` included; and a write whose payload parsed does not fail, so a
write fails only when the payload does not parse. -/
theorem store_invalid_input (a : Attr) (count : Nat) (odd : on3demand_data) :
    store a none count odd = (odd, Except.error Errno.EINVAL) ∧
    (∀ scan : Option Nat,
      (store a scan count odd).2 = Except.error Errno.EINVAL ↔ scan = none) := by
  constructor
  · cases a <;> rfl
  · intro scan
    cases scan with
    | none => cases a <;> simp [store, store_down_threshold, store_up_threshold,
        store_history_size, store_poll_interval, store_frame_done_deadline]
    | some v => simp [(store_some a v count odd).2]

/-! ## Start -/

/-- C13: for every prior state and every outcome of the sysfs registration,
`on3demand_start` leaves the same state: `up_threshold = 95`,
`down_threshold = 75`, `history_size = 10`, `low_load_cnt = 0`,
`poll_interval = 75`, `frame_done_deadline = 16`, `polling_enabled = false`.
A second start therefore leaves the state of the first, the function emits no
action (no frequency request), and its return value is the value
`sysfs_create_group` returned: 0 exactly when the registration succeeded. -/
theorem start_defaults (r r2 : Int) (odd : on3demand_data) :
    (on3demand_start r odd).1.1 =
      { up_threshold := 95, down_threshold := 75, history_size := 10, low_load_cnt := 0,
        poll_interval := 75, frame_done_deadline := 16, polling_enabled := false } ∧
    (on3demand_start r2 (on3demand_start r odd).1.1).1.1 = (on3demand_start r odd).1.1 ∧
    (on3demand_start r odd).1.2 = [] ∧
    (on3demand_start r odd).2 = r ∧
    ((on3demand_start r odd).2 = 0 ↔ r = 0) := by
  have h1 : ∀ (x : Int) (o : on3demand_data), (on3demand_start x o).1 = (default_data, []) := by
    intro x o
    unfold on3demand_start
    split_ifs <;> rfl
  have h2 : (on3demand_start r odd).2 = r := by
    unfold on3demand_start
    split_ifs with h
    · rfl
    · simp only [ne_eq, not_not] at h
      exact h.symm
  refine ⟨?_, ?_, ?_, h2, ?_⟩
  · rw [h1]; rfl
  · rw [h1, h1]
  · rw [h1]
  · rw [h2]

/-! ## Timer bookkeeping -/

theorem timer_effect_append (l1 l2 : List Action) :
    ∀ p : Nat, timer_effect (l1 ++ l2) p = timer_effect l2 (timer_effect l1 p) := by
  induction l1 with
  | nil => intro p; rfl
  | cons a as ih => intro p; cases a <;> simp [timer_effect, ih]

theorem timer_effect_timer_ops (l : List Action) :
    ∀ p : Nat, timer_effect l p = timer_effect (timer_ops l) p := by
  induction l with
  | nil => intro p; rfl
  | cons a as ih => intro p; cases a <;> simp [timer_effect, timer_ops, ih]

/-- `on3demand_predict` leaves the pending re-evaluations alone. -/
theorem predict_timer_effect (t : Target) (be : Backend) (odd : on3demand_data) (p : Nat) :
    timer_effect (on3demand_predict t be odd).2 p = p := by
  rw [timer_effect_timer_ops, predict_timer_ops]
  rfl

theorem predict_polling_enabled (t : Target) (be : Backend) (odd : on3demand_data) :
    (on3demand_predict t be odd).1.polling_enabled = odd.polling_enabled := by
  rw [predict_state]

theorem store_polling_enabled (a : Attr) (scan : Option Nat) (count : Nat)
    (odd : on3demand_data) :
    (store a scan count odd).1.polling_enabled = odd.polling_enabled := by
  cases a <;> cases scan <;> rfl

/-- Every step of the system keeps the polling-state invariant. -/
theorem step_polling_inv (t : Target) (e : Event) (s : System) (h : polling_inv s) :
    polling_inv (step t e s) := by
  obtain ⟨hiff, hle⟩ := h
  cases e with
  | active be =>
    cases hp : s.odd.polling_enabled with
    | false =>
      have h0 : s.pending = 0 := by
        rw [hp] at hiff
        have : ¬ s.pending = 1 := fun h1 => by simpa using hiff.mpr h1
        omega
      simp [polling_inv, step, on3demand_active, hp, timer_effect, h0]
    | true =>
      have h1 : s.pending = 1 := hiff.mp hp
      simp [polling_inv, step, on3demand_active, hp, timer_effect, h1]
  | frame_done be =>
    cases hp : s.odd.polling_enabled with
    | false =>
      have h0 : s.pending = 0 := by
        rw [hp] at hiff
        have : ¬ s.pending = 1 := fun h1 => by simpa using hiff.mpr h1
        omega
      simp [polling_inv, step, on3demand_frame_done, hp, timer_effect_append,
        predict_timer_effect, predict_polling_enabled, timer_effect, h0]
    | true =>
      simp [polling_inv, step, on3demand_frame_done, hp, timer_effect_append,
        predict_timer_effect, predict_polling_enabled, timer_effect]
  | timeout be =>
    by_cases h0 : s.pending = 0
    · simp only [step, if_pos h0]
      exact ⟨hiff, hle⟩
    · have h1 : s.pending = 1 := by omega
      by_cases hd : be.delta_active = 0
      · simp [polling_inv, step, on3demand_timeout, hd, timer_effect, h1]
      · simp [polling_inv, step, on3demand_timeout, hd, timer_effect_append,
          predict_timer_effect, timer_effect, h1]
  | predict be =>
    simp only [polling_inv, step, predict_timer_effect, predict_polling_enabled]
    exact ⟨hiff, hle⟩
  | write a scan count =>
    simp only [polling_inv, step, store_polling_enabled]
    exact ⟨hiff, hle⟩

theorem run_polling_inv (t : Target) (evs : List Event) :
    ∀ s : System, polling_inv s → polling_inv (run t evs s) := by
  induction evs with
  | nil => intro s h; exact h
  | cons e es ih => intro s h; exact ih _ (step_polling_inv t e s h)

theorem started_polling_inv (r : Int) (odd : on3demand_data) :
    polling_inv (started r odd) := by
  unfold polling_inv started on3demand_start
  split_ifs <;> simp

/-- The polling-state invariant holds along every run from `on3demand_start`. -/
theorem run_started_polling_inv (t : Target) (r : Int) (odd : on3demand_data)
    (evs : List Event) : polling_inv (run t evs (started r odd)) :=
  run_polling_inv t evs (started r odd) (started_polling_inv r odd)

/-! ## The polling state machine -/

/-- C14: in every state reached from `on3demand_start` by any sequence of
`on3demand_active`, `on3demand_frame_done`, configuration writes, direct
`on3demand_predict` calls and timer firings (a firing needs a pending
re-evaluation and consumes it), `polling_enabled` is true if and only if
exactly one re-evaluation is pending, and never more than one is pending. -/
theorem polling_iff_one_pending (t : Target) (r : Int) (odd : on3demand_data)
    (evs : List Event) :
    ((run t evs (started r odd)).odd.polling_enabled = true ↔
      (run t evs (started r odd)).pending = 1) ∧
    (run t evs (started r odd)).pending ≤ 1 :=
  run_polling_inv t evs (started r odd) (started_polling_inv r odd)

/-- C15: from every state with `polling_enabled = false` and nothing pending,
`on3demand_frame_done`, `on3demand_predict` and every configuration write
(parsed or not) leave `polling_enabled = false`, make no timer call and leave
nothing pending. And in every run from `on3demand_start`, a step that takes
`polling_enabled` from false to true is an `on3demand_active` call. -/
theorem idle_left_only_by_active (t : Target) (s : System) (r : Int)
    (odd : on3demand_data) (evs : List Event) (e : Event) :
    (s.odd.polling_enabled = false → s.pending = 0 →
      (∀ be, (step t (Event.frame_done be) s).odd.polling_enabled = false ∧
        (step t (Event.frame_done be) s).pending = 0 ∧
        timer_ops (on3demand_frame_done t be s.odd).2 = []) ∧
      (∀ be, (step t (Event.predict be) s).odd.polling_enabled = false ∧
        (step t (Event.predict be) s).pending = 0 ∧
        timer_ops (on3demand_predict t be s.odd).2 = []) ∧
      (∀ a scan count, (step t (Event.write a scan count) s).odd.polling_enabled = false ∧
        (step t (Event.write a scan count) s).pending = 0)) ∧
    ((run t evs (started r odd)).odd.polling_enabled = false →
      (step t e (run t evs (started r odd))).odd.polling_enabled = true →
      ∃ be, e = Event.active be) := by
  constructor
  · intro hp h0
    refine ⟨fun be => ?_, fun be => ?_, fun a scan count => ?_⟩
    · simp [step, on3demand_frame_done, hp, h0, predict_polling_enabled,
        predict_timer_effect, predict_timer_ops, timer_effect, timer_ops]
    · simp [step, hp, h0, predict_polling_enabled, predict_timer_effect, predict_timer_ops]
    · simp [step, hp, h0, store_polling_enabled]
  · intro hp hstep
    have hinv := run_started_polling_inv t r odd evs
    cases e with
    | active be => exact ⟨be, rfl⟩
    | frame_done be =>
      simp [step, on3demand_frame_done, predict_polling_enabled, hp] at hstep
    | timeout be =>
      have h0 : (run t evs (started r odd)).pending = 0 := by
        have hne : ¬ (run t evs (started r odd)).pending = 1 := fun h1 => by
          have := hinv.1.mpr h1
          rw [hp] at this
          exact Bool.noConfusion this
        have := hinv.2
        omega
      simp [step, h0, hp] at hstep
    | predict be =>
      simp [step, predict_polling_enabled, hp] at hstep
    | write a scan count =>
      simp [step, store_polling_enabled, hp] at hstep

/-- Witness for C15: right after `on3demand_start` a frame-done event with a
high load leaves the governor idle, and an `on3demand_active` call is a step
that enables polling. -/
theorem idle_left_only_by_active_witness :
    (step omap4
        (Event.frame_done
          { load := 96, delta_active := 20, freq := 100, freq_min := 50, freq_max := 300 })
        (started 0 default_data)).odd.polling_enabled = false ∧
    (step omap4
        (Event.frame_done
          { load := 96, delta_active := 20, freq := 100, freq_min := 50, freq_max := 300 })
        (started 0 default_data)).pending = 0 ∧
    (∃ be, Event.active
        { load := 0, delta_active := 0, freq := 100, freq_min := 50, freq_max := 300 } =
      Event.active be) := by
  have h := idle_left_only_by_active omap4 (started 0 default_data) 0 default_data []
    (Event.active { load := 0, delta_active := 0, freq := 100, freq_min := 50, freq_max := 300 })
  have h1 := (h.1 rfl rfl).1
    { load := 96, delta_active := 20, freq := 100, freq_min := 50, freq_max := 300 }
  exact ⟨h1.1, h1.2.1, h.2 rfl rfl⟩

/-! ## Parameter ranges and the counter bound -/

/-- The data of a system run is the data of some sequence of invocations. -/
theorem run_odd (t : Target) (evs : List Event) :
    ∀ s : System, ∃ es, (run t evs s).odd = handle_all t es s.odd := by
  induction evs with
  | nil => intro s; exact ⟨[], rfl⟩
  | cons e rest ih =>
    intro s
    obtain ⟨es, hes⟩ := ih (step t e s)
    by_cases hskip : step t e s = s
    · exact ⟨es, by rw [run, hes, hskip]⟩
    · refine ⟨e :: es, ?_⟩
      have hodd : (step t e s).odd = (handle t e s.odd).1 := by
        cases e with
        | timeout be =>
          by_cases h0 : s.pending = 0
          · exact absurd (by simp [step, h0]) hskip
          · simp [step, h0, handle]
        | active be => rfl
        | frame_done be => rfl
        | predict be => rfl
        | write a scan count => rfl
      rw [run, hes, hodd]
      rfl

theorem predict_same_params (t : Target) (be : Backend) (odd : on3demand_data) :
    same_params (on3demand_predict t be odd).1 odd := by
  unfold same_params
  rw [predict_state]
  exact ⟨rfl, rfl, rfl, rfl, rfl⟩

theorem active_same_params (t : Target) (be : Backend) (odd : on3demand_data) :
    same_params (on3demand_active t be odd).1 odd := by
  unfold same_params on3demand_active
  split_ifs <;> exact ⟨rfl, rfl, rfl, rfl, rfl⟩

theorem frame_done_same_params (t : Target) (be : Backend) (odd : on3demand_data) :
    same_params (on3demand_frame_done t be odd).1 odd :=
  predict_same_params t be odd

theorem timeout_same_params (t : Target) (be : Backend) (odd : on3demand_data) :
    same_params (on3demand_timeout t be odd).1 odd := by
  unfold on3demand_timeout
  split_ifs
  · exact ⟨rfl, rfl, rfl, rfl, rfl⟩
  · exact predict_same_params t be odd

theorem store_params_ok (a : Attr) (scan : Option Nat) (count : Nat) (odd : on3demand_data)
    (h : params_ok odd) : params_ok (store a scan count odd).1 := by
  obtain ⟨h1, h2, h3, h4, h5⟩ := h
  cases scan with
  | none => cases a <;> exact ⟨h1, h2, h3, h4, h5⟩
  | some v =>
    cases a <;>
      simp only [params_ok, store, store_down_threshold, store_up_threshold,
        store_history_size, store_poll_interval, store_frame_done_deadline] <;>
      refine ⟨?_, ?_, ?_, ?_, ?_⟩ <;> first | assumption | (split_ifs <;> omega)

theorem handle_params_ok (t : Target) (e : Event) (odd : on3demand_data)
    (h : params_ok odd) : params_ok (handle t e odd).1 := by
  have key : ∀ o : on3demand_data, same_params o odd → params_ok o := by
    intro o ho
    obtain ⟨a1, a2, a3, a4, a5⟩ := ho
    unfold params_ok
    rw [a1, a2, a3, a4, a5]
    exact h
  cases e with
  | active be => exact key _ (active_same_params t be odd)
  | frame_done be => exact key _ (frame_done_same_params t be odd)
  | timeout be => exact key _ (timeout_same_params t be odd)
  | predict be => exact key _ (predict_same_params t be odd)
  | write a scan count => exact store_params_ok a scan count odd h

theorem handle_all_params_ok (t : Target) (evs : List Event) :
    ∀ odd : on3demand_data, params_ok odd → params_ok (handle_all t evs odd) := by
  induction evs with
  | nil => intro odd h; exact h
  | cons e es ih => intro odd h; exact ih _ (handle_params_ok t e odd h)

theorem start_state (r : Int) (odd : on3demand_data) :
    (on3demand_start r odd).1.1 = default_data := by
  unfold on3demand_start
  split_ifs <;> rfl

/-- C17: in every state reached from `on3demand_start` by any sequence of
configuration writes (parsed or not), `on3demand_active`,
`on3demand_frame_done`, `on3demand_timeout` and `on3demand_predict` calls,
`up_threshold <= 100`, `down_threshold <= 100`, `history_size >= 1`,
`poll_interval >= 1` and `frame_done_deadline >= 1`; and none of the four
event handlers changes any of these five parameters, in any state. -/
theorem params_in_range (t : Target) (r : Int) (odd : on3demand_data) (evs : List Event)
    (be : Backend) (s : on3demand_data) :
    params_ok (handle_all t evs (on3demand_start r odd).1.1) ∧
    params_ok (run t evs (started r odd)).odd ∧
    same_params (on3demand_active t be s).1 s ∧
    same_params (on3demand_frame_done t be s).1 s ∧
    same_params (on3demand_timeout t be s).1 s ∧
    same_params (on3demand_predict t be s).1 s := by
  have hstart : params_ok (on3demand_start r odd).1.1 := by
    rw [start_state]
    unfold params_ok
    decide
  refine ⟨handle_all_params_ok t evs _ hstart, ?_, active_same_params t be s,
    frame_done_same_params t be s, timeout_same_params t be s, predict_same_params t be s⟩
  obtain ⟨es, hes⟩ := run_odd t evs (started r odd)
  rw [hes]
  exact handle_all_params_ok t es _ hstart

theorem predict_cnt_le (t : Target) (be : Backend) (odd : on3demand_data)
    (h : odd.low_load_cnt ≤ odd.history_size) :
    (on3demand_predict t be odd).1.low_load_cnt ≤
      (on3demand_predict t be odd).1.history_size := by
  have hd : deadline_cnt be odd ≤ odd.history_size := by
    unfold deadline_cnt
    split_ifs <;> omega
  rw [predict_unfold]
  split_ifs with h1 h2 h3
  · exact Nat.zero_le _
  · exact Nat.zero_le _
  · show (deadline_cnt be odd + 1) % UINT_MOD ≤ odd.history_size
    exact le_trans (Nat.mod_le _ _) (by omega)
  · exact Nat.zero_le _

theorem store_cnt_le (a : Attr) (scan : Option Nat) (count : Nat) (odd : on3demand_data)
    (h : odd.low_load_cnt ≤ odd.history_size) :
    (store a scan count odd).1.low_load_cnt ≤ (store a scan count odd).1.history_size := by
  cases scan with
  | none => cases a <;> exact h
  | some v => rw [(store_some a v count odd).1]; exact Nat.zero_le _

theorem handle_cnt_le (t : Target) (e : Event) (odd : on3demand_data)
    (h : odd.low_load_cnt ≤ odd.history_size) :
    (handle t e odd).1.low_load_cnt ≤ (handle t e odd).1.history_size := by
  cases e with
  | active be =>
    simp only [handle, on3demand_active]
    split_ifs
    · exact Nat.zero_le _
    · exact h
  | frame_done be => exact predict_cnt_le t be odd h
  | timeout be =>
    simp only [handle, on3demand_timeout]
    split_ifs
    · exact Nat.zero_le _
    · exact predict_cnt_le t be odd h
  | predict be => exact predict_cnt_le t be odd h
  | write a scan count => exact store_cnt_le a scan count odd h

theorem handle_all_cnt_le (t : Target) (evs : List Event) :
    ∀ odd : on3demand_data, odd.low_load_cnt ≤ odd.history_size →
      (handle_all t evs odd).low_load_cnt ≤ (handle_all t evs odd).history_size := by
  induction evs with
  | nil => intro odd h; exact h
  | cons e es ih => intro odd h; exact ih _ (handle_cnt_le t e odd h)

theorem handle_history_size_lt (t : Target) (e : Event) (odd : on3demand_data)
    (h : odd.history_size < UINT_MOD)
    (hw : ∀ a v count, e = Event.write a (some v) count → v < UINT_MOD) :
    (handle t e odd).1.history_size < UINT_MOD := by
  cases e with
  | active be =>
    show (on3demand_active t be odd).1.history_size < UINT_MOD
    rw [(active_same_params t be odd).2.2.1]; exact h
  | frame_done be =>
    show (on3demand_frame_done t be odd).1.history_size < UINT_MOD
    rw [(frame_done_same_params t be odd).2.2.1]; exact h
  | timeout be =>
    show (on3demand_timeout t be odd).1.history_size < UINT_MOD
    rw [(timeout_same_params t be odd).2.2.1]; exact h
  | predict be =>
    show (on3demand_predict t be odd).1.history_size < UINT_MOD
    rw [(predict_same_params t be odd).2.2.1]; exact h
  | write a scan count =>
    cases scan with
    | none => cases a <;> exact h
    | some v =>
      have hv : v < UINT_MOD := hw a v count rfl
      cases a <;>
        simp only [handle, store, store_down_threshold, store_up_threshold,
          store_history_size, store_poll_interval, store_frame_done_deadline] <;>
        first | exact h | skip
      have hpos : 1 < UINT_MOD := by decide
      split_ifs <;> omega

theorem handle_all_history_size_lt (t : Target) (evs : List Event) :
    ∀ odd : on3demand_data, odd.history_size < UINT_MOD → uint_writes evs →
      (handle_all t evs odd).history_size < UINT_MOD := by
  induction evs with
  | nil => intro odd h _; exact h
  | cons e es ih =>
    intro odd h hw
    refine ih _ (handle_history_size_lt t e odd h ?_) ?_
    · intro a v count he
      exact hw a v count (by rw [he]; exact List.mem_cons_self _ _)
    · intro a v count hmem
      exact hw a v count (List.mem_cons_of_mem _ hmem)

/-- C18: in every state reached from `on3demand_start` by any sequence of
configuration writes and `on3demand_active`, `on3demand_frame_done`,
`on3demand_timeout` and `on3demand_predict` calls, with arbitrary backend
readings, `low_load_cnt <= history_size`. When moreover the written values are
`unsigned int`s, `history_size` is below 2^32, so in such a state a low-load
call with the counter different from `history_size` increments the counter
exactly, without wrapping and without passing `history_size`. -/
theorem low_load_cnt_bounded (t : Target) (r : Int) (odd : on3demand_data)
    (evs : List Event) :
    (handle_all t evs (on3demand_start r odd).1.1).low_load_cnt ≤
      (handle_all t evs (on3demand_start r odd).1.1).history_size ∧
    (run t evs (started r odd)).odd.low_load_cnt ≤
      (run t evs (started r odd)).odd.history_size ∧
    (uint_writes evs →
      (handle_all t evs (on3demand_start r odd).1.1).history_size < 2 ^ 32 ∧
      ∀ be, low_load (handle_all t evs (on3demand_start r odd).1.1) be →
        (handle_all t evs (on3demand_start r odd).1.1).low_load_cnt ≠
          (handle_all t evs (on3demand_start r odd).1.1).history_size →
        (on3demand_predict t be (handle_all t evs (on3demand_start r odd).1.1)).1.low_load_cnt =
          (handle_all t evs (on3demand_start r odd).1.1).low_load_cnt + 1 ∧
        (handle_all t evs (on3demand_start r odd).1.1).low_load_cnt + 1 ≤
          (handle_all t evs (on3demand_start r odd).1.1).history_size) := by
  have h0 : (on3demand_start r odd).1.1.low_load_cnt ≤
      (on3demand_start r odd).1.1.history_size := by
    rw [start_state]; decide
  have hle := handle_all_cnt_le t evs _ h0
  refine ⟨hle, ?_, ?_⟩
  · obtain ⟨es, hes⟩ := run_odd t evs (started r odd)
    rw [hes]
    exact handle_all_cnt_le t es _ h0
  · intro hw
    have hh : (on3demand_start r odd).1.1.history_size < UINT_MOD := by
      rw [start_state]; decide
    have hlt := handle_all_history_size_lt t evs _ hh hw
    refine ⟨hlt, ?_⟩
    intro be hlow hne
    rw [predict_low_load t be _ hlow, if_neg hne]
    have hmod : ((handle_all t evs (on3demand_start r odd).1.1).low_load_cnt + 1) % UINT_MOD =
        (handle_all t evs (on3demand_start r odd).1.1).low_load_cnt + 1 :=
      Nat.mod_eq_of_lt (by omega)
    exact ⟨hmod, by omega⟩

/-- Witness for C18: after a write of 2 to `history_size` and one low-load
call the counter is 1, and the next low-load call takes it to 2 exactly. -/
theorem low_load_cnt_bounded_witness :
    (handle_all omap4
        [Event.write Attr.history_size (some 2) 2,
         Event.predict
           { load := 70, delta_active := 0, freq := 100, freq_min := 50, freq_max := 300 }]
        (on3demand_start 0 default_data).1.1).history_size < 2 ^ 32 ∧
    (on3demand_predict omap4
        { load := 70, delta_active := 0, freq := 100, freq_min := 50, freq_max := 300 }
        (handle_all omap4
          [Event.write Attr.history_size (some 2) 2,
           Event.predict
             { load := 70, delta_active := 0, freq := 100, freq_min := 50, freq_max := 300 }]
          (on3demand_start 0 default_data).1.1)).1.low_load_cnt =
      (handle_all omap4
          [Event.write Attr.history_size (some 2) 2,
           Event.predict
             { load := 70, delta_active := 0, freq := 100, freq_min := 50, freq_max := 300 }]
          (on3demand_start 0 default_data).1.1).low_load_cnt + 1 := by
  have hw : uint_writes
      [Event.write Attr.history_size (some 2) 2,
       Event.predict
         { load := 70, delta_active := 0, freq := 100, freq_min := 50, freq_max := 300 }] := by
    intro a v count hmem
    simp only [List.mem_cons, List.mem_singleton, Event.write.injEq, Option.some.injEq,
      List.mem_nil_iff, or_false, reduceCtorEq] at hmem
    obtain ⟨_, hv, _⟩ := hmem
    rw [hv]
    decide
  have h := (low_load_cnt_bounded omap4 0 default_data
    [Event.write Attr.history_size (some 2) 2,
     Event.predict
       { load := 70, delta_active := 0, freq := 100, freq_min := 50, freq_max := 300 }]).2.2 hw
  exact ⟨h.1,
    (h.2 { load := 70, delta_active := 0, freq := 100, freq_min := 50, freq_max := 300 }
      (by decide) (by decide)).1⟩

/-! ## Writes racing with `on3demand_predict` -/

/-- The three statements of `on3demand_predict`, run back to back, are
`on3demand_predict`. -/
theorem predict_statements (t : Target) (be : Backend) (odd : on3demand_data) :
    on3demand_predict t be odd =
      ((predict_branch t (predict_compare be (predict_deadline be odd).1) be
          (predict_deadline be odd).1).1,
        (predict_deadline be odd).2 ++
          (predict_branch t (predict_compare be (predict_deadline be odd).1) be
            (predict_deadline be odd).1).2) := by
  unfold on3demand_predict predict_compare predict_branch
  simp only []
  have hs : predict_deadline be odd =
      (if be.delta_active > odd.frame_done_deadline then
        ({ odd with low_load_cnt := 0 }, [Action.set_freq_request be.freq_max])
      else (odd, [])) := rfl
  rw [hs]
  split_ifs <;> simp

/-- C16 fails on the code: only the store functions take `odd.mutex`, and
`on3demand_predict` runs without it, so a write can run between two of its
statements. With the defaults and `load = 70`, let `on3demand_predict` compare
the load with the thresholds (70 <= 75: low-load branch), then let
`store_down_threshold` write 50, then let the selected branch run: the counter
ends at 1 with `down_threshold = 50`. Either atomic order, the write before
the whole call or after it, ends with the counter at 0. -/
theorem predict_write_interleaving :
    (predict_branch omap4
        (predict_compare
          { load := 70, delta_active := 0, freq := 100, freq_min := 50, freq_max := 300 }
          (predict_deadline
            { load := 70, delta_active := 0, freq := 100, freq_min := 50, freq_max := 300 }
            default_data).1)
        { load := 70, delta_active := 0, freq := 100, freq_min := 50, freq_max := 300 }
        (store_down_threshold (some 50) 2
          (predict_deadline
            { load := 70, delta_active := 0, freq := 100, freq_min := 50, freq_max := 300 }
            default_data).1).1).1 =
      { default_data with down_threshold := 50, low_load_cnt := 1 } ∧
    (on3demand_predict omap4
        { load := 70, delta_active := 0, freq := 100, freq_min := 50, freq_max := 300 }
        (store_down_threshold (some 50) 2 default_data).1).1 =
      { default_data with down_threshold := 50, low_load_cnt := 0 } ∧
    (store_down_threshold (some 50) 2
        (on3demand_predict omap4
          { load := 70, delta_active := 0, freq := 100, freq_min := 50, freq_max := 300 }
          default_data).1).1 =
      { default_data with down_threshold := 50, low_load_cnt := 0 } := by
  decide

/-! ## The value of the low-load request -/

/-- C19, as stated, fails: with a current frequency of 5 and `load = 11` the
low-load request is `5 * 11 / 10 = 5`, equal to the current frequency although
the load is not 10, and not above it although the load is not under 10. -/
theorem low_request_counterexample :
    on3demand_predict omap4
        { load := 11, delta_active := 0, freq := 5, freq_min := 1, freq_max := 300 }
        { default_data with low_load_cnt := 10 } =
      ({ default_data with low_load_cnt := 0 }, [Action.set_freq_request 5]) ∧
    (10 : Int) ≤ 11 ∧ (11 : Int) ≤ default_data.down_threshold ∧ (11 : Int) ≠ 10 ∧
    5 * 11 < 2 ^ omap4.BITS_PER_LONG := by
  decide

/-- C19, amended: when the low-load branch of `on3demand_predict` issues its
request `r` for a current frequency `f` and a load `L` whose product does not
overflow the `unsigned long`, then `r = f * L / 10`. For `L >= 10` it is at
least `f`, and it equals `f` exactly when `f * (L - 10) < 10` (always for
`L = 10`, and for larger loads only while truncation hides the excess, as for
`f = 5`, `L = 11`). For `L < 10` it is at most `f`, a request below `f` occurs
only for `L < 10`, and for `L = 0` it is 0. -/
theorem low_request_vs_current (t : Target) (be : Backend) (odd : on3demand_data) (r : Nat)
    (hlow : low_load odd be) (hcnt : odd.low_load_cnt = odd.history_size)
    (hr : (on3demand_predict t be odd).2 = [Action.set_freq_request r])
    (hno : be.freq * be.load.toNat < 2 ^ t.BITS_PER_LONG) :
    r = be.freq * be.load.toNat / 10 ∧
    (10 ≤ be.load →
      be.freq ≤ r ∧ (r = be.freq ↔ be.freq * (be.load.toNat - 10) < 10)) ∧
    (be.load = 10 → r = be.freq) ∧
    (be.load < 10 → r ≤ be.freq) ∧
    (r < be.freq → be.load < 10) ∧
    (be.load = 0 → r = 0) := by
  rw [predict_low_load t be odd hlow, if_pos hcnt] at hr
  simp only [List.cons.injEq, Action.set_freq_request.injEq, and_true] at hr
  rw [Nat.mod_eq_of_lt hno] at hr
  obtain ⟨h0, _, _, _, _⟩ := hlow
  have hL : be.load = ((be.load.toNat : Nat) : Int) := (Int.toNat_of_nonneg h0).symm
  generalize be.load.toNat = L at hL hr hno ⊢
  have hge : 10 ≤ L → be.freq * (L - 10) + 10 * be.freq = be.freq * L := by
    intro h
    rw [Nat.mul_sub, Nat.mul_comm 10 be.freq]
    exact Nat.sub_add_cancel (Nat.mul_le_mul_left _ h)
  have hlt : L < 10 → be.freq * L ≤ 9 * be.freq := by
    intro h
    rw [Nat.mul_comm 9 be.freq]
    exact Nat.mul_le_mul_left _ (by omega)
  have hz : L = 0 → be.freq * L = 0 := by
    intro h
    rw [h, Nat.mul_zero]
  refine ⟨hr.symm, ?_, ?_, ?_, ?_, ?_⟩
  · intro h
    have h1 := hge (by omega)
    constructor
    · omega
    · constructor <;> intro h2 <;> omega
  · intro h
    have h1 := hge (by omega)
    have h2 : L = 10 := by omega
    subst h2
    omega
  · intro h
    have h1 := hlt (by omega)
    omega
  · intro h
    by_contra hc
    have h1 := hge (by omega)
    omega
  · intro h
    have h1 := hz (by omega)
    omega

/-- Witness for C19 amended: the defaults with the counter at
`history_size = 10`, a current frequency of 1 000 000 and `load = 70`: the
request is for 7 000 000, seven times the current frequency. -/
theorem low_request_vs_current_witness :
    (on3demand_predict omap4
        { load := 70, delta_active := 0, freq := 1000000, freq_min := 50, freq_max := 300 }
        { default_data with low_load_cnt := 10 }).2 = [Action.set_freq_request 7000000] ∧
    (7000000 : Nat) = 1000000 * 70 / 10 ∧ (1000000 : Nat) ≤ 7000000 :=
  have h := low_request_vs_current omap4
    { load := 70, delta_active := 0, freq := 1000000, freq_min := 50, freq_max := 300 }
    { default_data with low_load_cnt := 10 } 7000000
    (by decide) (by decide) (by decide) (by decide)
  ⟨by decide, h.1, (h.2.1 (by decide)).1⟩

/-! ## The frame-deadline check -/

/-- C20: for every state with `history_size >= 1` and every load, if
`delta_active > frame_done_deadline` then `on3demand_predict` issues one
request for the maximum frequency, or two when the load is at least
`up_threshold`, and nothing else: the deadline check has zeroed the counter
before the load branches run, so the low-load branch cannot issue its
scale-down request even when `low_load_cnt` equalled `history_size` on
entry. -/
theorem predict_deadline_only_max (t : Target) (be : Backend) (odd : on3demand_data)
    (hd : be.delta_active > odd.frame_done_deadline) (hh : 1 ≤ odd.history_size) :
    (on3demand_predict t be odd).2 =
      (if to_uint be.load ≥ odd.up_threshold then
        [Action.set_freq_request be.freq_max, Action.set_freq_request be.freq_max]
       else [Action.set_freq_request be.freq_max]) ∧
    1 ≤ (freq_requests (on3demand_predict t be odd).2).length ∧
    (freq_requests (on3demand_predict t be odd).2).length ≤ 2 ∧
    (∀ f ∈ freq_requests (on3demand_predict t be odd).2, f = be.freq_max) := by
  have hc : deadline_cnt be odd = 0 := by simp [deadline_cnt, hd]
  have hr : deadline_requests be odd = [Action.set_freq_request be.freq_max] := by
    simp [deadline_requests, hd]
  have hne : ¬ (0 = odd.history_size) := by omega
  rw [predict_unfold, hc, hr, if_neg hne]
  split_ifs <;> simp [freq_requests]

/-- Witness for C20: the defaults with the counter at `history_size = 10` on
entry, `load = 70` and `delta_active = 20`: the only action is one request for
the maximum frequency. -/
theorem predict_deadline_only_max_witness :
    (on3demand_predict omap4
        { load := 70, delta_active := 20, freq := 100, freq_min := 50, freq_max := 300 }
        { default_data with low_load_cnt := 10 }).2 = [Action.set_freq_request 300] :=
  (predict_deadline_only_max omap4
    { load := 70, delta_active := 20, freq := 100, freq_min := 50, freq_max := 300 }
    { default_data with low_load_cnt := 10 } (by decide) (by decide)).1

end On3demand
